import Mathlib

/-
  Verification development for the `iot_usbh_cdc` USB host CDC driver
  (component `components/usb/iot_usbh_cdc`).

  The public surface is declared in `include/iot_usbh_cdc.h`; the driver
  engine itself (ring-buffer pipes, device registry and state machine,
  dispatch/transfer logic) lives in the accompanying implementation file,
  which is not part of the sources available here.  Where the header's
  documented contracts decide a behaviour, definitions below follow the
  header; the internal engine is modelled from the design specification.

  Machine integers (`size_t`, `uint8_t`) are modelled as `Nat`: no
  arithmetic performed here can overflow the C types for the buffer sizes
  involved, and bytes are only moved, never computed with.
-/

namespace IotUsbhCdc

/-- Abstract model of the `esp_err_t` codes the header documents
(`ESP_OK`, `ESP_FAIL`, `ESP_ERR_INVALID_ARG`, `ESP_ERR_INVALID_STATE`,
`ESP_ERR_NO_MEM`, duplicate-registration rejection, and
`ESP_ERR_NOT_FINISHED`). -/
inductive EspErr where
  | ok
  | fail
  | invalidArg
  | invalidState
  | noMem
  | alreadyExists
  | notFinished
deriving DecidableEq, Repr

/-- Modelled from the spec: the Ring-Buffer Pipe (design §4.3), whose C
implementation is not among the available sources.  A Pipe is a
fixed-capacity circular byte buffer with monotonic read/write cursors;
`stored` is the queue of accepted-but-unread bytes (oldest first), which a
cursor-based ring buffer represents as the region between the read and the
write cursor. -/
structure Pipe where
  capacity : Nat
  rd : Nat
  wr : Nat
  stored : List Nat
deriving DecidableEq, Repr

/-- A freshly created Pipe: both cursors at zero, nothing buffered. -/
def Pipe.init (c : Nat) : Pipe :=
  { capacity := c, rd := 0, wr := 0, stored := [] }

/-- Modelled from the spec: `available_bytes() -> count`. -/
def Pipe.availableBytes (p : Pipe) : Nat := p.stored.length

/-- Free space left in the Pipe. -/
def Pipe.freeBytes (p : Pipe) : Nat := p.capacity - p.stored.length

/-- Modelled from the spec: `push(bytes) -> bytes_accepted` copies as many
bytes as fit without overwrite and returns the count accepted (0 if
full). -/
def Pipe.push (p : Pipe) (bytes : List Nat) : Pipe × Nat :=
  let acc := min bytes.length p.freeBytes
  ({ p with wr := p.wr + acc, stored := p.stored ++ bytes.take acc }, acc)

/-- Modelled from the spec: `pop(max_len) -> bytes_returned` copies up to
`max_len` available bytes and returns them (empty if none). -/
def Pipe.pop (p : Pipe) (maxLen : Nat) : Pipe × List Nat :=
  let n := min maxLen p.stored.length
  ({ p with rd := p.rd + n, stored := p.stored.drop n }, p.stored.take n)

/-- Modelled from the spec: `flush()` resets both cursors to empty,
discarding buffered content (the read cursor catches up with the write
cursor). -/
def Pipe.flush (p : Pipe) : Pipe :=
  { p with rd := p.wr, stored := [] }

/-- The Pipe's representation invariant: cursors are ordered, their gap is
exactly the buffered byte count, and that count never exceeds the
capacity. -/
def Pipe.wellFormed (p : Pipe) : Prop :=
  p.rd ≤ p.wr ∧ p.wr - p.rd = p.stored.length ∧ p.stored.length ≤ p.capacity

instance (p : Pipe) : Decidable p.wellFormed := by
  unfold Pipe.wellFormed; infer_instance

/-- One application-visible Pipe operation (design §4.3). -/
inductive PipeOp where
  | push (bytes : List Nat)
  | pop (maxLen : Nat)
  | flush
deriving Repr

/-- Apply one Pipe operation, keeping only the resulting Pipe state. -/
def Pipe.applyOp (p : Pipe) : PipeOp → Pipe
  | .push bytes => (p.push bytes).1
  | .pop maxLen => (p.pop maxLen).1
  | .flush => p.flush

/-- Run a sequence of Pipe operations from a given Pipe state. -/
def Pipe.runOps (p : Pipe) (ops : List PipeOp) : Pipe :=
  ops.foldl Pipe.applyOp p

lemma Pipe.wellFormed_init (c : Nat) : (Pipe.init c).wellFormed := by
  simp [Pipe.init, Pipe.wellFormed]

lemma Pipe.capacity_applyOp (p : Pipe) (op : PipeOp) :
    (p.applyOp op).capacity = p.capacity := by
  cases op <;> simp [Pipe.applyOp, Pipe.push, Pipe.pop, Pipe.flush]

lemma Pipe.capacity_runOps (p : Pipe) (ops : List PipeOp) :
    (p.runOps ops).capacity = p.capacity := by
  induction ops generalizing p with
  | nil => rfl
  | cons op ops ih =>
      simpa [Pipe.runOps, List.foldl_cons, Pipe.capacity_applyOp]
        using (ih (p.applyOp op)).trans (Pipe.capacity_applyOp p op)

lemma Pipe.wellFormed_push (p : Pipe) (bytes : List Nat)
    (hp : p.wellFormed) : (p.push bytes).1.wellFormed := by
  obtain ⟨h1, h2, h3⟩ := hp
  unfold Pipe.push Pipe.wellFormed Pipe.freeBytes
  simp only [List.length_append, List.length_take]
  omega

lemma Pipe.wellFormed_pop (p : Pipe) (maxLen : Nat)
    (hp : p.wellFormed) : (p.pop maxLen).1.wellFormed := by
  obtain ⟨h1, h2, h3⟩ := hp
  unfold Pipe.pop Pipe.wellFormed
  simp only [List.length_drop]
  omega

lemma Pipe.wellFormed_flush (p : Pipe) (_hp : p.wellFormed) :
    p.flush.wellFormed := by
  unfold Pipe.flush Pipe.wellFormed
  simp

lemma Pipe.wellFormed_applyOp (p : Pipe) (op : PipeOp)
    (hp : p.wellFormed) : (p.applyOp op).wellFormed := by
  cases op with
  | push bytes => exact Pipe.wellFormed_push p bytes hp
  | pop maxLen => exact Pipe.wellFormed_pop p maxLen hp
  | flush => exact Pipe.wellFormed_flush p hp

lemma Pipe.wellFormed_runOps (p : Pipe) (ops : List PipeOp)
    (hp : p.wellFormed) : (p.runOps ops).wellFormed := by
  induction ops generalizing p with
  | nil => exact hp
  | cons op ops ih =>
      exact ih (p.applyOp op) (Pipe.wellFormed_applyOp p op hp)

lemma Pipe.push_accepted_le_free (p : Pipe) (bytes : List Nat) :
    (p.push bytes).2 ≤ p.capacity - p.availableBytes := by
  simp [Pipe.push, Pipe.freeBytes, Pipe.availableBytes]

/-- Device-selection configuration, from `usbh_cdc_device_config_t`
(header lines 57-66): vendor id / product id (0 = wildcard, per
`CDC_HOST_ANY_VID`/`CDC_HOST_ANY_PID`), interface number, and RX/TX
buffer sizes (0 = default 1024).  Callback pointers are modelled by the
per-device callback-invocation counters kept on `Device`. -/
structure DeviceCfg where
  vid : Nat
  pid : Nat
  itf : Nat
  rxSize : Nat
  txSize : Nat
deriving DecidableEq, Repr

/-- Header: "default is 1024 bytes if set to 0" for both buffer sizes. -/
def effectiveSize (n : Nat) : Nat := if n = 0 then 1024 else n

/-- Modelled from the spec: the Device connection states of design §3
(the CDC implementation file holding the state enum is not among the
available sources).  OPENING/CLOSING are transient states internal to the
dispatch task and are not observable between the modelled atomic steps, so
the model keeps the three observable states. -/
inductive DevState where
  | created
  | connected
  | disconnected
deriving DecidableEq, Repr

/-- Modelled from the spec: a registered CDC device (design §3): identity
configuration, connection state, one RX and one TX Pipe, and counters of
how many times the connect/disconnect callbacks have fired. -/
structure Device where
  id : Nat
  cfg : DeviceCfg
  st : DevState
  rx : Pipe
  tx : Pipe
  connectCbCount : Nat
  disconnectCbCount : Nat
deriving DecidableEq, Repr

/-- Modelled from the spec: an in-flight transfer slot (design §3),
owned by the device `devId`; `dirIn` is true for IN (RX) transfers. -/
structure TransferSlot where
  devId : Nat
  dirIn : Bool
deriving DecidableEq, Repr

/-- Modelled from the spec: the process-wide driver state (design §3):
installed flag, the device registry, the in-flight transfer slots, and a
fresh-handle counter (the handle arena). -/
structure Sys where
  installed : Bool
  nextId : Nat
  devices : List Device
  transfers : List TransferSlot
deriving DecidableEq, Repr

/-- The pristine UNINSTALLED driver state. -/
def Sys.start : Sys :=
  { installed := false, nextId := 0, devices := [], transfers := [] }

/-- Resolve a handle in the registry (the handle-to-object indirection of
design §9). -/
def Sys.findDev (s : Sys) (h : Nat) : Option Device :=
  s.devices.find? (fun d => d.id == h)

/-- Apply `f` to the registered device with handle `h` (no-op on other
devices). -/
def Sys.updateDev (s : Sys) (h : Nat) (f : Device → Device) : Sys :=
  { s with devices := s.devices.map (fun d => if d.id == h then f d else d) }

/-- `usbh_cdc_install` (header lines 68-96): fails with
`ESP_ERR_INVALID_STATE` if the driver is already installed, otherwise the
driver state becomes INSTALLED.  Allocation/task-creation failures
(`ESP_ERR_NO_MEM`/`ESP_FAIL`) and config validation are outside the
model. -/
def usbh_cdc_install (s : Sys) : Sys × EspErr :=
  if s.installed then (s, .invalidState)
  else ({ s with installed := true }, .ok)

/-- `usbh_cdc_uninstall` (header lines 98-109): fails with
`ESP_ERR_INVALID_STATE` if the driver is not installed or devices are
still active; on success all driver resources are released and the state
returns to UNINSTALLED.  The bounded task-exit timeout
(`ESP_ERR_NOT_FINISHED`) is untimed here and not modelled. -/
def usbh_cdc_uninstall (s : Sys) : Sys × EspErr :=
  if !s.installed then (s, .invalidState)
  else if !s.devices.isEmpty then (s, .invalidState)
  else ({ installed := false, nextId := s.nextId, devices := [], transfers := [] }, .ok)

/-- `usbh_cdc_create` (header lines 111-127): fails with
`ESP_ERR_INVALID_STATE` if the driver is not installed; per the spec's
matching policy (design §4.2, modelled from the spec because the registry
code is not among the available sources), a creation request whose
(vendor, product, interface) triple is already registered is rejected with
the AlreadyExists error and registers nothing.  Otherwise a new Device in
state CREATED with freshly allocated Pipes joins the registry and its
handle is returned. -/
def usbh_cdc_create (s : Sys) (cfg : DeviceCfg) : Sys × Option Nat × EspErr :=
  if !s.installed then (s, none, .invalidState)
  else if s.devices.any
      (fun d => d.cfg.vid == cfg.vid && d.cfg.pid == cfg.pid && d.cfg.itf == cfg.itf) then
    (s, none, .alreadyExists)
  else
    let d : Device :=
      { id := s.nextId, cfg := cfg, st := .created,
        rx := Pipe.init (effectiveSize cfg.rxSize),
        tx := Pipe.init (effectiveSize cfg.txSize),
        connectCbCount := 0, disconnectCbCount := 0 }
    ({ s with nextId := s.nextId + 1, devices := s.devices ++ [d] },
      some s.nextId, .ok)

/-- `usbh_cdc_delete` (header lines 129-141): `ESP_ERR_INVALID_STATE` if
the driver is not installed, `ESP_ERR_INVALID_ARG` for an unrecognized
handle; otherwise the device leaves the registry and is freed.  Per the
spec's cancellation discipline (design §5, modelled from the spec), the
device's outstanding transfer slots are cancelled/awaited before the free,
so none of its slots survives the call. -/
def usbh_cdc_delete (s : Sys) (h : Nat) : Sys × EspErr :=
  if !s.installed then (s, .invalidState)
  else if (s.findDev h).isNone then (s, .invalidArg)
  else
    ({ s with devices := s.devices.filter (fun d => d.id != h),
              transfers := s.transfers.filter (fun t => t.devId != h) }, .ok)

/-- Does this pending configuration match an arriving physical device
exactly (design §4.2)? -/
def DeviceCfg.matchesExact (c : DeviceCfg) (vid pid itf : Nat) : Bool :=
  c.vid == vid && c.pid == pid && c.itf == itf

/-- Wildcard match: VID and PID both 0 accept the first physical device
(header `CDC_HOST_ANY_VID`/`CDC_HOST_ANY_PID`). -/
def DeviceCfg.matchesAny (c : DeviceCfg) : Bool :=
  c.vid == 0 && c.pid == 0

/-- Modelled from the spec: the dispatch task's registry lookup on a
new-physical-device event (design §4.1/§4.2): an exact (vendor, product)
match among pending devices wins, otherwise a wildcard entry takes the
device. -/
def Sys.findMatch (s : Sys) (vid pid itf : Nat) : Option Device :=
  match s.devices.find?
      (fun d => d.st == DevState.created && d.cfg.matchesExact vid pid itf) with
  | some d => some d
  | none =>
      s.devices.find? (fun d => d.st == DevState.created && d.cfg.matchesAny)

/-- The CONNECTED transition applied to a matched Device: state change
plus one firing of the connect callback. -/
def connectDev (e : Device) : Device :=
  { e with st := .connected, connectCbCount := e.connectCbCount + 1 }

/-- The DISCONNECTED transition applied to a Device on removal: state
change plus one firing of the disconnect callback. -/
def disconnectDev (e : Device) : Device :=
  { e with st := .disconnected, disconnectCbCount := e.disconnectCbCount + 1 }

/-- Push `bytes` into a Device's TX Pipe. -/
def pushTxDev (bytes : List Nat) (e : Device) : Device :=
  { e with tx := (e.tx.push bytes).1 }

/-- Pop up to `maxLen` bytes from a Device's RX Pipe. -/
def popRxDev (maxLen : Nat) (e : Device) : Device :=
  { e with rx := (e.rx.pop maxLen).1 }

/-- Push `bytes` into a Device's RX Pipe (transfer-completion path). -/
def pushRxDev (bytes : List Nat) (e : Device) : Device :=
  { e with rx := (e.rx.push bytes).1 }

/-- Pop one transfer's worth of bytes from a Device's TX Pipe (transfer
submission path). -/
def popTxDev (maxLen : Nat) (e : Device) : Device :=
  { e with tx := (e.tx.pop maxLen).1 }

/-- Flush a Device's RX Pipe. -/
def flushRxDev (e : Device) : Device := { e with rx := e.rx.flush }

/-- Flush a Device's TX Pipe. -/
def flushTxDev (e : Device) : Device := { e with tx := e.tx.flush }

/-- Modelled from the spec: the dispatch task's handling of a
new-physical-device event (design §4.1): the matching pending Device is
claimed, transitions to CONNECTED, its connect callback fires, and the
Transfer Scheduler primes the pipes by submitting a first IN transfer. -/
def Sys.deviceArrived (s : Sys) (vid pid itf : Nat) : Sys :=
  match s.findMatch vid pid itf with
  | none => s
  | some d =>
      let s' := s.updateDev d.id connectDev
      { s' with transfers := s'.transfers ++ [⟨d.id, true⟩] }

/-- Modelled from the spec: the dispatch task's handling of a
device-removed event (design §4.1): the owning CONNECTED Device has its
outstanding transfers cancelled, transitions to DISCONNECTED, and its
disconnect callback fires once.  A device that is not CONNECTED is not
affected. -/
def Sys.deviceRemoved (s : Sys) (h : Nat) : Sys :=
  match s.findDev h with
  | none => s
  | some d =>
      if d.st == DevState.connected then
        let s' := s.updateDev h disconnectDev
        { s' with transfers := s'.transfers.filter (fun t => t.devId != h) }
      else s

/-- `usbh_cdc_write_bytes` (header lines 143-158): pushes data into the
output (TX) ring buffer.  `ESP_ERR_INVALID_ARG` for an unknown handle,
`ESP_ERR_INVALID_STATE` if the device is not connected.  Per the header's
length contract ("On success, it remains unchanged, otherwise set to 0")
and "If the buffer is full ... the write will fail", acceptance is
all-or-nothing: a request that fits in free space is accepted whole with
`ESP_OK`, otherwise nothing is buffered and the call fails reporting 0. -/
def usbh_cdc_write_bytes (s : Sys) (h : Nat) (bytes : List Nat) :
    Sys × EspErr × Nat :=
  match s.findDev h with
  | none => (s, .invalidArg, 0)
  | some d =>
      if d.st != DevState.connected then (s, .invalidState, 0)
      else if bytes.length ≤ d.tx.freeBytes then
        (s.updateDev h (pushTxDev bytes), .ok, bytes.length)
      else (s, .fail, 0)

/-- `usbh_cdc_read_bytes` (header lines 160-175): pops data from the input
(RX) ring buffer.  `ESP_ERR_INVALID_ARG` for an unknown handle,
`ESP_ERR_INVALID_STATE` if the device is not connected.  Per the header,
"If no data is available ... the read will fail"; on success the length is
updated with the actual bytes read (up to the requested length). -/
def usbh_cdc_read_bytes (s : Sys) (h : Nat) (maxLen : Nat) :
    Sys × EspErr × List Nat :=
  match s.findDev h with
  | none => (s, .invalidArg, [])
  | some d =>
      if d.st != DevState.connected then (s, .invalidState, [])
      else if d.rx.availableBytes == 0 then (s, .fail, [])
      else
        (s.updateDev h (popRxDev maxLen), .ok, (d.rx.pop maxLen).2)

/-- `usbh_cdc_flush_rx_buffer` (header lines 177-188): clears the receive
buffer; `ESP_ERR_INVALID_ARG` for an unknown handle, `ESP_OK` otherwise
(the header lists no connection-state requirement). -/
def usbh_cdc_flush_rx_buffer (s : Sys) (h : Nat) : Sys × EspErr :=
  match s.findDev h with
  | none => (s, .invalidArg)
  | some _ => (s.updateDev h flushRxDev, .ok)

/-- `usbh_cdc_flush_tx_buffer` (header lines 190-201): clears the transmit
buffer; `ESP_ERR_INVALID_ARG` for an unknown handle, `ESP_OK` otherwise
(the header lists no connection-state requirement). -/
def usbh_cdc_flush_tx_buffer (s : Sys) (h : Nat) : Sys × EspErr :=
  match s.findDev h with
  | none => (s, .invalidArg)
  | some _ => (s.updateDev h flushTxDev, .ok)

/-- `usbh_cdc_get_state` (header lines 217-227): -1 on error (invalid
handle), 0 for disconnected (not connected), 1 for connected. -/
def usbh_cdc_get_state (s : Sys) (h : Nat) : Int :=
  match s.findDev h with
  | none => -1
  | some d => if d.st == DevState.connected then 1 else 0

/-- Modelled from the spec: the Transfer Scheduler submitting an IN
transfer when the RX Pipe has free space and the device is CONNECTED
(design §4.4). -/
def Sys.submitInTransfer (s : Sys) (h : Nat) : Sys :=
  match s.findDev h with
  | none => s
  | some d =>
      if d.st == DevState.connected && 0 < d.rx.freeBytes then
        { s with transfers := s.transfers ++ [⟨h, true⟩] }
      else s

/-- Modelled from the spec: the Transfer Scheduler popping up to one
transfer's worth (one 64-byte bulk packet) of buffered TX data and
submitting an OUT transfer (design §4.4). -/
def Sys.submitOutTransfer (s : Sys) (h : Nat) : Sys :=
  match s.findDev h with
  | none => s
  | some d =>
      if d.st == DevState.connected && 0 < d.tx.availableBytes then
        let s' := s.updateDev h (popTxDev 64)
        { s' with transfers := s'.transfers ++ [⟨h, false⟩] }
      else s

/-- Modelled from the spec: completion of an IN transfer (design §4.4):
the slot retires and the received bytes are pushed into the owning
device's RX Pipe. -/
def Sys.completeInTransfer (s : Sys) (h : Nat) (bytes : List Nat) : Sys :=
  if s.transfers.any (fun t => t.devId == h && t.dirIn) then
    let s' := { s with transfers := s.transfers.eraseP (fun t => t.devId == h && t.dirIn) }
    s'.updateDev h (pushRxDev bytes)
  else s

/-- Modelled from the spec: completion of an OUT transfer (design §4.4):
the slot simply retires. -/
def Sys.completeOutTransfer (s : Sys) (h : Nat) : Sys :=
  { s with transfers := s.transfers.eraseP (fun t => t.devId == h && !t.dirIn) }

/-- One atomic step of the whole system: an application API call or a
dispatch-task event. -/
inductive Event where
  | install
  | uninstall
  | create (cfg : DeviceCfg)
  | delete (h : Nat)
  | arrived (vid pid itf : Nat)
  | removed (h : Nat)
  | writeBytes (h : Nat) (bytes : List Nat)
  | readBytes (h : Nat) (maxLen : Nat)
  | flushRx (h : Nat)
  | flushTx (h : Nat)
  | submitIn (h : Nat)
  | submitOut (h : Nat)
  | completeIn (h : Nat) (bytes : List Nat)
  | completeOut (h : Nat)
deriving Repr

/-- Apply one event to the system state. -/
def Sys.stepEv (s : Sys) : Event → Sys
  | .install => (usbh_cdc_install s).1
  | .uninstall => (usbh_cdc_uninstall s).1
  | .create cfg => (usbh_cdc_create s cfg).1
  | .delete h => (usbh_cdc_delete s h).1
  | .arrived vid pid itf => s.deviceArrived vid pid itf
  | .removed h => s.deviceRemoved h
  | .writeBytes h bytes => (usbh_cdc_write_bytes s h bytes).1
  | .readBytes h maxLen => (usbh_cdc_read_bytes s h maxLen).1
  | .flushRx h => (usbh_cdc_flush_rx_buffer s h).1
  | .flushTx h => (usbh_cdc_flush_tx_buffer s h).1
  | .submitIn h => s.submitInTransfer h
  | .submitOut h => s.submitOutTransfer h
  | .completeIn h bytes => s.completeInTransfer h bytes
  | .completeOut h => s.completeOutTransfer h

/-- Run a sequence of events from a system state. -/
def Sys.runEvents (s : Sys) (evs : List Event) : Sys :=
  evs.foldl Sys.stepEv s

/-- Every in-flight transfer slot is owned by a device still present in
the registry. -/
def Sys.slotsOwned (s : Sys) : Prop :=
  ∀ t ∈ s.transfers, t.devId ∈ s.devices.map Device.id

instance (s : Sys) : Decidable s.slotsOwned := by
  unfold Sys.slotsOwned; infer_instance

/-- A wildcard device configuration: VID/PID 0 (accept any device),
interface 0, default buffer sizes (0 ↦ 1024). -/
def wildcardCfg : DeviceCfg :=
  { vid := 0, pid := 0, itf := 0, rxSize := 0, txSize := 0 }

/-- Install the driver and register one pending wildcard device. -/
def exPending : Sys :=
  Sys.runEvents Sys.start [.install, .create wildcardCfg]

/-- The pending device as registered by `exPending` (handle 0, CREATED,
1024-byte pipes). -/
def exPendingDev : Device :=
  { id := 0, cfg := wildcardCfg, st := .created,
    rx := Pipe.init 1024, tx := Pipe.init 1024,
    connectCbCount := 0, disconnectCbCount := 0 }

/-- Install, register a wildcard device, and let a physical device
(VID 0x1234, PID 0x5678, interface 0) arrive: the device is CONNECTED
with empty 1024-byte pipes. -/
def exSys : Sys :=
  Sys.runEvents Sys.start [.install, .create wildcardCfg, .arrived 4660 22136 0]

/-- The connected device registered in `exSys` under handle 0. -/
def exDev : Device :=
  { id := 0, cfg := wildcardCfg, st := .connected,
    rx := Pipe.init 1024, tx := Pipe.init 1024,
    connectCbCount := 1, disconnectCbCount := 0 }

lemma mem_of_findDev {s : Sys} {h : Nat} {d : Device}
    (hf : s.findDev h = some d) : d ∈ s.devices :=
  List.mem_of_find?_eq_some hf

lemma id_of_findDev {s : Sys} {h : Nat} {d : Device}
    (hf : s.findDev h = some d) : d.id = h := by
  have := List.find?_some hf
  simpa using this

lemma find?_id_map_update (l : List Device) (h : Nat) (f : Device → Device)
    (hf : ∀ d, (f d).id = d.id) :
    (l.map (fun d => if d.id == h then f d else d)).find? (fun d => d.id == h)
      = (l.find? (fun d => d.id == h)).map f := by
  induction l with
  | nil => rfl
  | cons a l ih =>
      by_cases ha : a.id = h
      · simp [List.find?_cons, ha, hf]
      · simp only [List.map_cons]
        rw [List.find?_cons_of_neg _ (by simp [ha]),
          List.find?_cons_of_neg _ (by simp [ha]), ih]

lemma findDev_updateDev (s : Sys) (h : Nat) (f : Device → Device)
    (hf : ∀ d, (f d).id = d.id) :
    (s.updateDev h f).findDev h = (s.findDev h).map f :=
  find?_id_map_update s.devices h f hf

lemma updateDev_transfers (s : Sys) (h : Nat) (f : Device → Device) :
    (s.updateDev h f).transfers = s.transfers := rfl

lemma updateDev_map_id (s : Sys) (h : Nat) (f : Device → Device)
    (hf : ∀ d, (f d).id = d.id) :
    (s.updateDev h f).devices.map Device.id = s.devices.map Device.id := by
  simp only [Sys.updateDev, List.map_map]
  refine List.map_congr_left (fun d _ => ?_)
  by_cases hd : d.id = h
  · simp [hd, hf]
  · simp [hd]

lemma updateDev_updateDev (s : Sys) (h : Nat) (f g : Device → Device)
    (hf : ∀ d, (f d).id = d.id) :
    (s.updateDev h f).updateDev h g = s.updateDev h (fun d => g (f d)) := by
  simp only [Sys.updateDev, List.map_map]
  refine congrArg (fun l => { s with devices := l }) ?_
  refine List.map_congr_left (fun d _ => ?_)
  by_cases hd : d.id = h
  · simp [hd, hf]
  · simp [hd]

lemma mem_of_findMatch {s : Sys} {vid pid itf : Nat} {d : Device}
    (hm : s.findMatch vid pid itf = some d) : d ∈ s.devices := by
  unfold Sys.findMatch at hm
  rcases he : s.devices.find?
      (fun d => d.st == DevState.created && d.cfg.matchesExact vid pid itf) with _ | d₀
  · rw [he] at hm
    exact List.mem_of_find?_eq_some hm
  · rw [he] at hm
    cases hm
    exact List.mem_of_find?_eq_some he

@[simp] lemma connectDev_id (e : Device) : (connectDev e).id = e.id := rfl

@[simp] lemma disconnectDev_id (e : Device) : (disconnectDev e).id = e.id := rfl

@[simp] lemma pushTxDev_id (bytes : List Nat) (e : Device) :
    (pushTxDev bytes e).id = e.id := rfl

@[simp] lemma popRxDev_id (maxLen : Nat) (e : Device) :
    (popRxDev maxLen e).id = e.id := rfl

@[simp] lemma pushRxDev_id (bytes : List Nat) (e : Device) :
    (pushRxDev bytes e).id = e.id := rfl

@[simp] lemma popTxDev_id (maxLen : Nat) (e : Device) :
    (popTxDev maxLen e).id = e.id := rfl

@[simp] lemma flushRxDev_id (e : Device) : (flushRxDev e).id = e.id := rfl

@[simp] lemma flushTxDev_id (e : Device) : (flushTxDev e).id = e.id := rfl

lemma write_bytes_of_none {s : Sys} {h : Nat} (bytes : List Nat)
    (hf : s.findDev h = none) :
    usbh_cdc_write_bytes s h bytes = (s, .invalidArg, 0) := by
  simp [usbh_cdc_write_bytes, hf]

lemma write_bytes_of_not_connected {s : Sys} {h : Nat} {d : Device}
    (bytes : List Nat) (hf : s.findDev h = some d)
    (hc : d.st ≠ DevState.connected) :
    usbh_cdc_write_bytes s h bytes = (s, .invalidState, 0) := by
  simp [usbh_cdc_write_bytes, hf, hc]

lemma write_bytes_of_fits {s : Sys} {h : Nat} {d : Device} {bytes : List Nat}
    (hf : s.findDev h = some d) (hc : d.st = DevState.connected)
    (hlen : bytes.length ≤ d.tx.freeBytes) :
    usbh_cdc_write_bytes s h bytes
      = (s.updateDev h (pushTxDev bytes), .ok, bytes.length) := by
  simp [usbh_cdc_write_bytes, hf, hc, hlen]

lemma write_bytes_of_overflow {s : Sys} {h : Nat} {d : Device} {bytes : List Nat}
    (hf : s.findDev h = some d) (hc : d.st = DevState.connected)
    (hlen : d.tx.freeBytes < bytes.length) :
    usbh_cdc_write_bytes s h bytes = (s, .fail, 0) := by
  simp [usbh_cdc_write_bytes, hf, hc, Nat.not_le.mpr hlen]

lemma read_bytes_of_none {s : Sys} {h : Nat} (maxLen : Nat)
    (hf : s.findDev h = none) :
    usbh_cdc_read_bytes s h maxLen = (s, .invalidArg, []) := by
  simp [usbh_cdc_read_bytes, hf]

lemma read_bytes_of_not_connected {s : Sys} {h : Nat} {d : Device}
    (maxLen : Nat) (hf : s.findDev h = some d)
    (hc : d.st ≠ DevState.connected) :
    usbh_cdc_read_bytes s h maxLen = (s, .invalidState, []) := by
  simp [usbh_cdc_read_bytes, hf, hc]

lemma read_bytes_of_empty {s : Sys} {h : Nat} {d : Device}
    (maxLen : Nat) (hf : s.findDev h = some d)
    (hc : d.st = DevState.connected) (he : d.rx.availableBytes = 0) :
    usbh_cdc_read_bytes s h maxLen = (s, .fail, []) := by
  simp [usbh_cdc_read_bytes, hf, hc, he]

lemma read_bytes_of_nonempty {s : Sys} {h : Nat} {d : Device}
    (maxLen : Nat) (hf : s.findDev h = some d)
    (hc : d.st = DevState.connected) (he : d.rx.availableBytes ≠ 0) :
    usbh_cdc_read_bytes s h maxLen
      = (s.updateDev h (popRxDev maxLen), .ok, (d.rx.pop maxLen).2) := by
  simp [usbh_cdc_read_bytes, hf, hc, he]

lemma flush_rx_of_none {s : Sys} {h : Nat} (hf : s.findDev h = none) :
    usbh_cdc_flush_rx_buffer s h = (s, .invalidArg) := by
  simp [usbh_cdc_flush_rx_buffer, hf]

lemma flush_rx_of_some {s : Sys} {h : Nat} {d : Device}
    (hf : s.findDev h = some d) :
    usbh_cdc_flush_rx_buffer s h = (s.updateDev h flushRxDev, .ok) := by
  simp [usbh_cdc_flush_rx_buffer, hf]

lemma flush_tx_of_none {s : Sys} {h : Nat} (hf : s.findDev h = none) :
    usbh_cdc_flush_tx_buffer s h = (s, .invalidArg) := by
  simp [usbh_cdc_flush_tx_buffer, hf]

lemma flush_tx_of_some {s : Sys} {h : Nat} {d : Device}
    (hf : s.findDev h = some d) :
    usbh_cdc_flush_tx_buffer s h = (s.updateDev h flushTxDev, .ok) := by
  simp [usbh_cdc_flush_tx_buffer, hf]

lemma deviceRemoved_of_connected {s : Sys} {h : Nat} {d : Device}
    (hf : s.findDev h = some d) (hc : d.st = DevState.connected) :
    s.deviceRemoved h
      = { s.updateDev h disconnectDev with
          transfers := s.transfers.filter (fun t => t.devId != h) } := by
  simp [Sys.deviceRemoved, hf, hc, updateDev_transfers]

lemma deviceRemoved_of_not_connected {s : Sys} {h : Nat} {d : Device}
    (hf : s.findDev h = some d) (hc : d.st ≠ DevState.connected) :
    s.deviceRemoved h = s := by
  simp [Sys.deviceRemoved, hf, hc]

lemma slotsOwned_updateDev {s : Sys} (h : Nat) (f : Device → Device)
    (hf : ∀ d, (f d).id = d.id) (hs : s.slotsOwned) :
    (s.updateDev h f).slotsOwned := by
  intro t ht
  rw [updateDev_transfers] at ht
  rw [updateDev_map_id s h f hf]
  exact hs t ht

lemma slotsOwned_stepEv (s : Sys) (e : Event) (hs : s.slotsOwned) :
    (s.stepEv e).slotsOwned := by
  cases e with
  | install =>
      simp only [Sys.stepEv, usbh_cdc_install]
      split
      · exact hs
      · exact fun t ht => hs t ht
  | uninstall =>
      simp only [Sys.stepEv, usbh_cdc_uninstall]
      split
      · exact hs
      · split
        · exact hs
        · intro t ht
          exact absurd ht (List.not_mem_nil t)
  | create cfg =>
      simp only [Sys.stepEv, usbh_cdc_create]
      split
      · exact hs
      · split
        · exact hs
        · intro t ht
          simp only [List.map_append, List.mem_append]
          exact Or.inl (hs t ht)
  | delete h =>
      simp only [Sys.stepEv, usbh_cdc_delete]
      split
      · exact hs
      · split
        · exact hs
        · intro t ht
          simp only [List.mem_filter] at ht
          obtain ⟨ht1, ht2⟩ := ht
          obtain ⟨d, hd, hid⟩ := List.mem_map.mp (hs t ht1)
          refine List.mem_map.mpr ⟨d, List.mem_filter.mpr ⟨hd, ?_⟩, hid⟩
          simpa [hid] using ht2
  | arrived vid pid itf =>
      simp only [Sys.stepEv, Sys.deviceArrived]
      rcases hm : s.findMatch vid pid itf with _ | d
      · simp only [hm]
        exact hs
      · simp only [hm]
        intro t ht
        simp only [updateDev_transfers, List.mem_append, List.mem_singleton] at ht
        have hids := updateDev_map_id s d.id connectDev (fun e => rfl)
        refine hids ▸ ?_
        rcases ht with ht | ht
        · exact hs t ht
        · subst ht
          exact List.mem_map.mpr ⟨d, mem_of_findMatch hm, rfl⟩
  | removed h =>
      simp only [Sys.stepEv, Sys.deviceRemoved]
      rcases hfd : s.findDev h with _ | d
      · simp only [hfd]
        exact hs
      · simp only [hfd]
        split
        · intro t ht
          simp only [updateDev_transfers, List.mem_filter] at ht
          obtain ⟨ht1, _⟩ := ht
          have hids := updateDev_map_id s h disconnectDev (fun e => rfl)
          exact hids ▸ hs t ht1
        · exact hs
  | writeBytes h bytes =>
      simp only [Sys.stepEv, usbh_cdc_write_bytes]
      rcases hfd : s.findDev h with _ | d
      · simp only [hfd]
        exact hs
      · simp only [hfd]
        split
        · exact hs
        · split
          · exact slotsOwned_updateDev h (pushTxDev bytes) (fun e => rfl) hs
          · exact hs
  | readBytes h maxLen =>
      simp only [Sys.stepEv, usbh_cdc_read_bytes]
      rcases hfd : s.findDev h with _ | d
      · simp only [hfd]
        exact hs
      · simp only [hfd]
        split
        · exact hs
        · split
          · exact hs
          · exact slotsOwned_updateDev h (popRxDev maxLen) (fun e => rfl) hs
  | flushRx h =>
      simp only [Sys.stepEv, usbh_cdc_flush_rx_buffer]
      rcases hfd : s.findDev h with _ | d
      · simp only [hfd]
        exact hs
      · simp only [hfd]
        exact slotsOwned_updateDev h flushRxDev (fun e => rfl) hs
  | flushTx h =>
      simp only [Sys.stepEv, usbh_cdc_flush_tx_buffer]
      rcases hfd : s.findDev h with _ | d
      · simp only [hfd]
        exact hs
      · simp only [hfd]
        exact slotsOwned_updateDev h flushTxDev (fun e => rfl) hs
  | submitIn h =>
      simp only [Sys.stepEv, Sys.submitInTransfer]
      rcases hfd : s.findDev h with _ | d
      · simp only [hfd]
        exact hs
      · simp only [hfd]
        split
        · intro t ht
          simp only [List.mem_append, List.mem_singleton] at ht
          rcases ht with ht | ht
          · exact hs t ht
          · subst ht
            exact List.mem_map.mpr ⟨d, mem_of_findDev hfd, id_of_findDev hfd⟩
        · exact hs
  | submitOut h =>
      simp only [Sys.stepEv, Sys.submitOutTransfer]
      rcases hfd : s.findDev h with _ | d
      · simp only [hfd]
        exact hs
      · simp only [hfd]
        split
        · intro t ht
          simp only [updateDev_transfers, List.mem_append, List.mem_singleton] at ht
          have hids := updateDev_map_id s h (popTxDev 64) (fun e => rfl)
          refine hids ▸ ?_
          rcases ht with ht | ht
          · exact hs t ht
          · subst ht
            exact List.mem_map.mpr ⟨d, mem_of_findDev hfd, id_of_findDev hfd⟩
        · exact hs
  | completeIn h bytes =>
      simp only [Sys.stepEv, Sys.completeInTransfer]
      split
      · intro t ht
        rw [updateDev_transfers] at ht
        have ht' : t ∈ s.transfers := List.mem_of_mem_eraseP ht
        have hids := updateDev_map_id
          { s with transfers := s.transfers.eraseP (fun t => t.devId == h && t.dirIn) }
          h (pushRxDev bytes) (fun e => rfl)
        exact hids ▸ hs t ht'
      · exact hs
  | completeOut h =>
      intro t ht
      exact hs t (List.mem_of_mem_eraseP ht)

lemma slotsOwned_runEvents (s : Sys) (evs : List Event) (hs : s.slotsOwned) :
    (s.runEvents evs).slotsOwned := by
  induction evs generalizing s with
  | nil => exact hs
  | cons e evs ih => exact ih (s.stepEv e) (slotsOwned_stepEv s e hs)

lemma findDev_exSys : exSys.findDev 0 = some exDev := by decide

/-- C1: For every sequence of push and pop operations on a Pipe of fixed
capacity C, the count of accepted-but-unread bytes never exceeds C at any
point: a push accepts at most C minus the currently buffered count, and
the write cursor never overtakes the read cursor by more than C. -/
theorem pipe_accepted_never_exceeds_capacity (C : Nat) (ops : List PipeOp) :
    (Pipe.runOps (Pipe.init C) ops).availableBytes ≤ C ∧
    (Pipe.runOps (Pipe.init C) ops).wr - (Pipe.runOps (Pipe.init C) ops).rd ≤ C ∧
    ∀ bytes, ((Pipe.runOps (Pipe.init C) ops).push bytes).2
      ≤ C - (Pipe.runOps (Pipe.init C) ops).availableBytes := by
  obtain ⟨h1, h2, h3⟩ :=
    Pipe.wellFormed_runOps (Pipe.init C) ops (Pipe.wellFormed_init C)
  have hcap : ((Pipe.init C).runOps ops).capacity = C :=
    Pipe.capacity_runOps (Pipe.init C) ops
  refine ⟨?_, ?_, fun bytes => ?_⟩
  · simp only [Pipe.availableBytes]
    omega
  · omega
  · have hle := Pipe.push_accepted_le_free (Pipe.runOps (Pipe.init C) ops) bytes
    simp only [Pipe.availableBytes] at hle ⊢
    omega

/-- C2 counterexample: in the model that follows the header's documented
length contract for `usbh_cdc_write_bytes` ("On success, it remains
unchanged, otherwise set to 0"; "If the buffer is full ... the write will
fail"), writing 2000 bytes to a CONNECTED device whose empty TX pipe has
capacity 1024 does not succeed reporting 1024 accepted bytes: the call
fails and reports 0, leaving the state unchanged. -/
theorem write_2000_into_empty_1024_fails :
    exSys.findDev 0 = some exDev ∧ exDev.st = DevState.connected ∧
    exDev.tx.capacity = 1024 ∧ exDev.tx.availableBytes = 0 ∧
    usbh_cdc_write_bytes exSys 0 (List.replicate 2000 0)
      = (exSys, EspErr.fail, 0) ∧
    ¬((usbh_cdc_write_bytes exSys 0 (List.replicate 2000 0)).2.1 = EspErr.ok ∧
      (usbh_cdc_write_bytes exSys 0 (List.replicate 2000 0)).2.2 = 1024) := by
  have hlt : exDev.tx.freeBytes < (List.replicate 2000 (0 : Nat)).length := by
    rw [List.length_replicate]
    decide
  refine ⟨by decide, by decide, by decide, by decide, ?_, ?_⟩
  · exact write_bytes_of_overflow findDev_exSys (by decide) hlt
  · rw [write_bytes_of_overflow findDev_exSys (by decide) hlt]
    decide

/-- C2 (amended): `write_bytes` is all-or-nothing, not a partial
best-effort push: a request that fits in the TX pipe's free space is
accepted whole (`ESP_OK`, reported length equal to the request), a request
exceeding free space fails outright with the reported length set to 0 and
the state unchanged; in particular the reported accepted count never
exceeds the pipe's free space. -/
theorem write_bytes_all_or_nothing (s : Sys) (h : Nat) (d : Device)
    (bytes : List Nat) (hf : s.findDev h = some d)
    (hc : d.st = DevState.connected) :
    (bytes.length ≤ d.tx.freeBytes →
      usbh_cdc_write_bytes s h bytes
        = (s.updateDev h (pushTxDev bytes), EspErr.ok, bytes.length)) ∧
    (d.tx.freeBytes < bytes.length →
      usbh_cdc_write_bytes s h bytes = (s, EspErr.fail, 0)) ∧
    (usbh_cdc_write_bytes s h bytes).2.2 ≤ d.tx.freeBytes := by
  refine ⟨fun hlen => write_bytes_of_fits hf hc hlen,
    fun hlen => write_bytes_of_overflow hf hc hlen, ?_⟩
  rcases le_or_lt bytes.length d.tx.freeBytes with hle | hlt
  · rw [write_bytes_of_fits hf hc hle]
    exact hle
  · rw [write_bytes_of_overflow hf hc hlt]
    exact Nat.zero_le _

/-- Witness for the amended C2 theorem at a concrete connected device. -/
theorem write_bytes_all_or_nothing_witness :
    exSys.findDev 0 = some exDev ∧ exDev.st = DevState.connected ∧
    (usbh_cdc_write_bytes exSys 0 [1, 2, 3]).2.2 ≤ exDev.tx.freeBytes :=
  ⟨by decide, by decide,
    (write_bytes_all_or_nothing exSys 0 exDev [1, 2, 3]
      (by decide) (by decide)).2.2⟩

/-- C3 counterexample: `write_bytes` fills the TX pipe while `read_bytes`
drains the distinct RX pipe, so with no USB transfer involved a write of
[1, 2, 3] (accepted in full) followed by a read returns no data at all —
not the written bytes. -/
theorem write_then_read_not_roundtrip :
    (usbh_cdc_write_bytes exSys 0 [1, 2, 3]).2 = (EspErr.ok, 3) ∧
    usbh_cdc_read_bytes (usbh_cdc_write_bytes exSys 0 [1, 2, 3]).1 0 3
      = ((usbh_cdc_write_bytes exSys 0 [1, 2, 3]).1, EspErr.fail, []) ∧
    (usbh_cdc_read_bytes (usbh_cdc_write_bytes exSys 0 [1, 2, 3]).1 0 3).2.2
      ≠ [1, 2, 3] := by
  refine ⟨by decide, by decide, by decide⟩

/-- C3 (amended): the buffer-level round-trip holds on the TX pipe: bytes
accepted by `write_bytes` are stored in the device's TX pipe byte-for-byte
in order, and popping that pipe (which is what a transfer submission does)
returns exactly those bytes; `read_bytes` operates on the separate RX pipe
and cannot observe them without a USB transfer. -/
theorem write_bytes_tx_roundtrip (s : Sys) (h : Nat) (d : Device)
    (bytes : List Nat) (hf : s.findDev h = some d)
    (hc : d.st = DevState.connected) (hemp : d.tx.stored = [])
    (hlen : bytes.length ≤ d.tx.capacity) :
    ∃ d', (usbh_cdc_write_bytes s h bytes).1.findDev h = some d' ∧
      (usbh_cdc_write_bytes s h bytes).2.1 = EspErr.ok ∧
      (usbh_cdc_write_bytes s h bytes).2.2 = bytes.length ∧
      d'.tx.stored = bytes ∧
      (d'.tx.pop bytes.length).2 = bytes := by
  have hfree : d.tx.freeBytes = d.tx.capacity := by
    simp [Pipe.freeBytes, hemp]
  have hle : bytes.length ≤ d.tx.freeBytes := by omega
  rw [write_bytes_of_fits hf hc hle]
  have hstored : (pushTxDev bytes d).tx.stored = bytes := by
    simp [pushTxDev, Pipe.push, hemp, Nat.min_eq_left hle]
  refine ⟨pushTxDev bytes d, ?_, rfl, rfl, hstored, ?_⟩
  · rw [findDev_updateDev s h (pushTxDev bytes) (fun e => rfl), hf]
    rfl
  · simp [Pipe.pop, hstored]

/-- Witness for the amended C3 theorem at a concrete connected device. -/
theorem write_bytes_tx_roundtrip_witness :
    exSys.findDev 0 = some exDev ∧ exDev.st = DevState.connected ∧
    exDev.tx.stored = [] ∧
    ([1, 2, 3] : List Nat).length ≤ exDev.tx.capacity ∧
    (∃ d', (usbh_cdc_write_bytes exSys 0 [1, 2, 3]).1.findDev 0 = some d' ∧
      (usbh_cdc_write_bytes exSys 0 [1, 2, 3]).2.1 = EspErr.ok ∧
      (usbh_cdc_write_bytes exSys 0 [1, 2, 3]).2.2 = ([1, 2, 3] : List Nat).length ∧
      d'.tx.stored = [1, 2, 3] ∧
      (d'.tx.pop ([1, 2, 3] : List Nat).length).2 = [1, 2, 3]) :=
  ⟨by decide, by decide, by decide, by decide,
    write_bytes_tx_roundtrip exSys 0 exDev [1, 2, 3]
      (by decide) (by decide) (by decide) (by decide)⟩

lemma delete_of_some {s : Sys} {h : Nat} {d : Device}
    (hins : s.installed = true) (hf : s.findDev h = some d) :
    usbh_cdc_delete s h
      = ({ s with devices := s.devices.filter (fun e => e.id != h),
                  transfers := s.transfers.filter (fun t => t.devId != h) },
          .ok) := by
  simp [usbh_cdc_delete, hins, hf]

lemma delete_err_of_uninstalled {s : Sys} {h : Nat}
    (hins : s.installed = false) :
    (usbh_cdc_delete s h).2 ≠ EspErr.ok := by
  simp [usbh_cdc_delete, hins]

lemma delete_err_of_none {s : Sys} {h : Nat} (hf : s.findDev h = none) :
    (usbh_cdc_delete s h).2 ≠ EspErr.ok := by
  unfold usbh_cdc_delete
  split
  · simp
  · simp [hf]

/-- C4: no transfer slot outlives the Device that owns it: in every state
reachable from the pristine driver state, every in-flight transfer slot
belongs to a device still present in the registry; and a successful
`delete` first cancels/awaits the device's transfer slots, so afterwards
the handle resolves to nothing and no slot referencing it remains. -/
theorem no_transfer_slot_outlives_device (evs : List Event) (s : Sys) (h : Nat) :
    (Sys.runEvents Sys.start evs).slotsOwned ∧
    ((usbh_cdc_delete s h).2 = EspErr.ok →
      (usbh_cdc_delete s h).1.findDev h = none ∧
      ∀ t ∈ (usbh_cdc_delete s h).1.transfers, t.devId ≠ h) := by
  constructor
  · exact slotsOwned_runEvents Sys.start evs
      (fun t ht => absurd ht (List.not_mem_nil t))
  · intro hok
    rcases hb : s.installed with _ | _
    · exact absurd hok (delete_err_of_uninstalled hb)
    rcases hfd : s.findDev h with _ | d
    · exact absurd hok (delete_err_of_none hfd)
    rw [delete_of_some hb hfd]
    constructor
    · simp only [Sys.findDev, List.find?_eq_none, List.mem_filter]
      intro e he
      simpa using he.2
    · intro t ht
      simp only [List.mem_filter] at ht
      simpa using ht.2

/-- Witness for the C4 theorem: deleting the connected device of `exSys`
succeeds and leaves no slot referencing its handle. -/
theorem no_transfer_slot_outlives_device_witness :
    (usbh_cdc_delete exSys 0).2 = EspErr.ok ∧
    ((usbh_cdc_delete exSys 0).1.findDev 0 = none ∧
      ∀ t ∈ (usbh_cdc_delete exSys 0).1.transfers, t.devId ≠ 0) :=
  ⟨by decide,
    (no_transfer_slot_outlives_device
      [.install, .create wildcardCfg, .arrived 4660 22136 0] exSys 0).2
      (by decide)⟩

/-- C5: while a create request with a given (vendor, product, interface)
identity is registered (pending, before any physical device arrives), a
second `create` with the identical triple fails with the AlreadyExists
error and registers no second device (the state is unchanged). -/
theorem create_duplicate_rejected (s : Sys) (d : Device) (cfg : DeviceCfg)
    (hins : s.installed = true) (hd : d ∈ s.devices)
    (hvid : d.cfg.vid = cfg.vid) (hpid : d.cfg.pid = cfg.pid)
    (hitf : d.cfg.itf = cfg.itf) :
    usbh_cdc_create s cfg = (s, none, EspErr.alreadyExists) := by
  have hdup : s.devices.any
      (fun e => e.cfg.vid == cfg.vid && e.cfg.pid == cfg.pid
        && e.cfg.itf == cfg.itf) = true :=
    List.any_eq_true.mpr ⟨d, hd, by simp [hvid, hpid, hitf]⟩
  simp [usbh_cdc_create, hins, hdup]

/-- Witness for the C5 theorem: a second wildcard create on `exPending`
is rejected with AlreadyExists. -/
theorem create_duplicate_rejected_witness :
    exPending.installed = true ∧ exPendingDev ∈ exPending.devices ∧
    exPendingDev.cfg.vid = wildcardCfg.vid ∧
    exPendingDev.cfg.pid = wildcardCfg.pid ∧
    exPendingDev.cfg.itf = wildcardCfg.itf ∧
    usbh_cdc_create exPending wildcardCfg
      = (exPending, none, EspErr.alreadyExists) :=
  ⟨by decide, by decide, by decide, by decide, by decide,
    create_duplicate_rejected exPending exPendingDev wildcardCfg
      (by decide) (by decide) (by decide) (by decide) (by decide)⟩

/-- C6: while any Device handle is still registered, `uninstall` fails
with the invalid-state error and leaves the driver INSTALLED (state
unchanged); once the registry is empty, `uninstall` succeeds, the driver
returns to UNINSTALLED with a clean registry, and a subsequent `install`
succeeds again. -/
theorem uninstall_blocked_then_clean_reinstall (s : Sys)
    (hins : s.installed = true) :
    (s.devices ≠ [] →
      usbh_cdc_uninstall s = (s, EspErr.invalidState) ∧
      (usbh_cdc_uninstall s).1.installed = true) ∧
    (s.devices = [] →
      (usbh_cdc_uninstall s).2 = EspErr.ok ∧
      (usbh_cdc_uninstall s).1.installed = false ∧
      (usbh_cdc_uninstall s).1.devices = [] ∧
      (usbh_cdc_install (usbh_cdc_uninstall s).1).2 = EspErr.ok ∧
      (usbh_cdc_install (usbh_cdc_uninstall s).1).1.installed = true) := by
  constructor
  · intro hne
    have hne' : s.devices.isEmpty = false := by
      rcases hdv : s.devices with _ | ⟨e, l⟩
      · exact absurd hdv hne
      · simp
    constructor
    · simp [usbh_cdc_uninstall, hins, hne']
    · simp [usbh_cdc_uninstall, hins, hne']
  · intro hemp
    simp [usbh_cdc_uninstall, usbh_cdc_install, hins, hemp]

/-- Witness for the C6 theorem at the freshly installed driver state (the
pending-device case of the conclusion is exercised by instantiating at
`exPending` through the same theorem's other conjunct, but a single
concrete state can only realize one side; the empty-registry side is
realized here). -/
theorem uninstall_blocked_then_clean_reinstall_witness :
    exPending.installed = true ∧
    ((exPending.devices ≠ [] →
      usbh_cdc_uninstall exPending = (exPending, EspErr.invalidState) ∧
      (usbh_cdc_uninstall exPending).1.installed = true) ∧
    (exPending.devices = [] →
      (usbh_cdc_uninstall exPending).2 = EspErr.ok ∧
      (usbh_cdc_uninstall exPending).1.installed = false ∧
      (usbh_cdc_uninstall exPending).1.devices = [] ∧
      (usbh_cdc_install (usbh_cdc_uninstall exPending).1).2 = EspErr.ok ∧
      (usbh_cdc_install (usbh_cdc_uninstall exPending).1).1.installed = true)) :=
  ⟨by decide, uninstall_blocked_then_clean_reinstall exPending (by decide)⟩

/-- C7 counterexample: in the model that follows the header's documented
contract ("If no data is available ... the read will fail"), `read_bytes`
on a valid, CONNECTED device whose RX buffer is merely empty returns an
error rather than succeeding with a zero byte count. -/
theorem read_empty_buffer_fails :
    exSys.findDev 0 = some exDev ∧ exDev.st = DevState.connected ∧
    exDev.rx.availableBytes = 0 ∧
    usbh_cdc_read_bytes exSys 0 16 = (exSys, EspErr.fail, []) ∧
    (usbh_cdc_read_bytes exSys 0 16).2.1 ≠ EspErr.ok := by
  refine ⟨by decide, by decide, by decide, by decide, by decide⟩

/-- C7 (amended): the full error taxonomy of `read_bytes`/`write_bytes`:
InvalidArgument for an unknown handle, InvalidState for a registered but
non-connected device, and — contrary to the claim — an outright generic
failure (reported count 0, state unchanged) when the RX buffer is empty
(read) or the request exceeds the TX pipe's free space (write); when data
or space suffices the calls succeed. -/
theorem read_write_error_taxonomy (s : Sys) (h maxLen : Nat)
    (bytes : List Nat) :
    (s.findDev h = none →
      usbh_cdc_read_bytes s h maxLen = (s, EspErr.invalidArg, []) ∧
      usbh_cdc_write_bytes s h bytes = (s, EspErr.invalidArg, 0)) ∧
    (∀ d, s.findDev h = some d → d.st ≠ DevState.connected →
      usbh_cdc_read_bytes s h maxLen = (s, EspErr.invalidState, []) ∧
      usbh_cdc_write_bytes s h bytes = (s, EspErr.invalidState, 0)) ∧
    (∀ d, s.findDev h = some d → d.st = DevState.connected →
      d.rx.availableBytes = 0 →
      usbh_cdc_read_bytes s h maxLen = (s, EspErr.fail, [])) ∧
    (∀ d, s.findDev h = some d → d.st = DevState.connected →
      d.rx.availableBytes ≠ 0 →
      (usbh_cdc_read_bytes s h maxLen).2.1 = EspErr.ok) ∧
    (∀ d, s.findDev h = some d → d.st = DevState.connected →
      d.tx.freeBytes < bytes.length →
      usbh_cdc_write_bytes s h bytes = (s, EspErr.fail, 0)) ∧
    (∀ d, s.findDev h = some d → d.st = DevState.connected →
      bytes.length ≤ d.tx.freeBytes →
      (usbh_cdc_write_bytes s h bytes).2.1 = EspErr.ok) := by
  refine ⟨fun hf => ⟨read_bytes_of_none maxLen hf, write_bytes_of_none bytes hf⟩,
    fun d hf hc => ⟨read_bytes_of_not_connected maxLen hf hc,
      write_bytes_of_not_connected bytes hf hc⟩,
    fun d hf hc he => read_bytes_of_empty maxLen hf hc he,
    fun d hf hc he => ?_,
    fun d hf hc hlen => write_bytes_of_overflow hf hc hlen,
    fun d hf hc hlen => ?_⟩
  · rw [read_bytes_of_nonempty maxLen hf hc he]
  · rw [write_bytes_of_fits hf hc hlen]

/-- Witness for the amended C7 theorem: the empty-RX read failure on the
concrete connected device of `exSys`. -/
theorem read_write_error_taxonomy_witness :
    exSys.findDev 0 = some exDev ∧ exDev.st = DevState.connected ∧
    exDev.rx.availableBytes = 0 ∧
    usbh_cdc_read_bytes exSys 0 16 = (exSys, EspErr.fail, []) :=
  ⟨by decide, by decide, by decide,
    (read_write_error_taxonomy exSys 0 16 []).2.2.1 exDev
      (by decide) (by decide) (by decide)⟩

/-- C8: `get_state` returns only -1 (error, e.g. unknown handle),
0 (disconnected) or 1 (connected); and after a device-removal event on a
CONNECTED device, the device is DISCONNECTED, the disconnect callback has
fired exactly once more (a repeated removal event changes nothing), and
subsequent `read_bytes`/`write_bytes` on the handle return InvalidState
while leaving the state untouched. -/
theorem get_state_and_removal_behavior (s : Sys) (h maxLen : Nat)
    (bytes : List Nat) :
    (usbh_cdc_get_state s h = -1 ∨ usbh_cdc_get_state s h = 0 ∨
      usbh_cdc_get_state s h = 1) ∧
    (∀ d, s.findDev h = some d → d.st = DevState.connected →
      ∃ d', (s.deviceRemoved h).findDev h = some d' ∧
        d'.st = DevState.disconnected ∧
        d'.disconnectCbCount = d.disconnectCbCount + 1 ∧
        usbh_cdc_get_state (s.deviceRemoved h) h = 0 ∧
        (s.deviceRemoved h).deviceRemoved h = s.deviceRemoved h ∧
        usbh_cdc_read_bytes (s.deviceRemoved h) h maxLen
          = (s.deviceRemoved h, EspErr.invalidState, []) ∧
        usbh_cdc_write_bytes (s.deviceRemoved h) h bytes
          = (s.deviceRemoved h, EspErr.invalidState, 0)) := by
  constructor
  · unfold usbh_cdc_get_state
    rcases s.findDev h with _ | d
    · exact Or.inl rfl
    · by_cases hc : (d.st == DevState.connected) = true
      · right; right; simp [hc]
      · right; left; simp [hc]
  · intro d hf hc
    have hfd' : (s.deviceRemoved h).findDev h = some (disconnectDev d) := by
      rw [deviceRemoved_of_connected hf hc]
      show (s.updateDev h disconnectDev).findDev h = some (disconnectDev d)
      rw [findDev_updateDev s h disconnectDev (fun e => rfl), hf]
      rfl
    have hnc : (disconnectDev d).st ≠ DevState.connected := by
      simp [disconnectDev]
    refine ⟨disconnectDev d, hfd', rfl, rfl, ?_, ?_, ?_, ?_⟩
    · simp [usbh_cdc_get_state, hfd', disconnectDev]
    · exact deviceRemoved_of_not_connected hfd' hnc
    · exact read_bytes_of_not_connected maxLen hfd' hnc
    · exact write_bytes_of_not_connected bytes hfd' hnc

/-- Witness for the C8 theorem: removal of the concrete connected device
of `exSys`. -/
theorem get_state_and_removal_behavior_witness :
    exSys.findDev 0 = some exDev ∧ exDev.st = DevState.connected ∧
    (∃ d', (exSys.deviceRemoved 0).findDev 0 = some d' ∧
      d'.st = DevState.disconnected ∧
      d'.disconnectCbCount = exDev.disconnectCbCount + 1 ∧
      usbh_cdc_get_state (exSys.deviceRemoved 0) 0 = 0 ∧
      (exSys.deviceRemoved 0).deviceRemoved 0 = exSys.deviceRemoved 0 ∧
      usbh_cdc_read_bytes (exSys.deviceRemoved 0) 0 16
        = (exSys.deviceRemoved 0, EspErr.invalidState, []) ∧
      usbh_cdc_write_bytes (exSys.deviceRemoved 0) 0 [1, 2, 3]
        = (exSys.deviceRemoved 0, EspErr.invalidState, 0)) :=
  ⟨by decide, by decide,
    (get_state_and_removal_behavior exSys 0 16 [1, 2, 3]).2 exDev
      (by decide) (by decide)⟩

/-- C9: `flush_rx_buffer` and `flush_tx_buffer` are idempotent: the second
of two consecutive flushes returns the very same state and result as the
first, and for a valid handle the flushed pipe reaches (and stays at) zero
available bytes. -/
theorem flush_idempotent (s : Sys) (h : Nat) :
    usbh_cdc_flush_rx_buffer (usbh_cdc_flush_rx_buffer s h).1 h
      = usbh_cdc_flush_rx_buffer s h ∧
    usbh_cdc_flush_tx_buffer (usbh_cdc_flush_tx_buffer s h).1 h
      = usbh_cdc_flush_tx_buffer s h ∧
    (∀ d, s.findDev h = some d →
      (∃ d', (usbh_cdc_flush_rx_buffer s h).1.findDev h = some d' ∧
        d'.rx.availableBytes = 0) ∧
      (∃ d'', (usbh_cdc_flush_tx_buffer s h).1.findDev h = some d'' ∧
        d''.tx.availableBytes = 0)) := by
  refine ⟨?_, ?_, ?_⟩
  · rcases hfd : s.findDev h with _ | d
    · simp [flush_rx_of_none hfd]
    · have hfd2 : (s.updateDev h flushRxDev).findDev h
          = some (flushRxDev d) := by
        rw [findDev_updateDev s h flushRxDev (fun e => rfl), hfd]
        rfl
      rw [flush_rx_of_some hfd]
      show usbh_cdc_flush_rx_buffer (s.updateDev h flushRxDev) h
        = (s.updateDev h flushRxDev, EspErr.ok)
      rw [flush_rx_of_some hfd2,
        updateDev_updateDev s h flushRxDev flushRxDev (fun e => rfl)]
      have hfun : (fun e => flushRxDev (flushRxDev e)) = flushRxDev :=
        funext fun e => rfl
      rw [hfun]
  · rcases hfd : s.findDev h with _ | d
    · simp [flush_tx_of_none hfd]
    · have hfd2 : (s.updateDev h flushTxDev).findDev h
          = some (flushTxDev d) := by
        rw [findDev_updateDev s h flushTxDev (fun e => rfl), hfd]
        rfl
      rw [flush_tx_of_some hfd]
      show usbh_cdc_flush_tx_buffer (s.updateDev h flushTxDev) h
        = (s.updateDev h flushTxDev, EspErr.ok)
      rw [flush_tx_of_some hfd2,
        updateDev_updateDev s h flushTxDev flushTxDev (fun e => rfl)]
      have hfun : (fun e => flushTxDev (flushTxDev e)) = flushTxDev :=
        funext fun e => rfl
      rw [hfun]
  · intro d hfd
    have hrx : (s.updateDev h flushRxDev).findDev h = some (flushRxDev d) := by
      rw [findDev_updateDev s h flushRxDev (fun e => rfl), hfd]
      rfl
    have htx : (s.updateDev h flushTxDev).findDev h = some (flushTxDev d) := by
      rw [findDev_updateDev s h flushTxDev (fun e => rfl), hfd]
      rfl
    constructor
    · refine ⟨flushRxDev d, ?_, rfl⟩
      rw [flush_rx_of_some hfd]
      exact hrx
    · refine ⟨flushTxDev d, ?_, rfl⟩
      rw [flush_tx_of_some hfd]
      exact htx

/-- Witness for the C9 theorem on the concrete device of `exSys`. -/
theorem flush_idempotent_witness :
    exSys.findDev 0 = some exDev ∧
    ((∃ d', (usbh_cdc_flush_rx_buffer exSys 0).1.findDev 0 = some d' ∧
        d'.rx.availableBytes = 0) ∧
      (∃ d'', (usbh_cdc_flush_tx_buffer exSys 0).1.findDev 0 = some d'' ∧
        d''.tx.availableBytes = 0)) :=
  ⟨by decide, (flush_idempotent exSys 0).2.2 exDev (by decide)⟩

/-- C10: the flush operations ignore the device's connection state: for
any registered handle — CONNECTED or not — `flush_rx_buffer` and
`flush_tx_buffer` return `ESP_OK` (never InvalidState), and their only
failure mode is InvalidArgument for an unknown handle. -/
theorem flush_succeeds_any_state (s : Sys) (h : Nat) :
    (s.findDev h = none →
      usbh_cdc_flush_rx_buffer s h = (s, EspErr.invalidArg) ∧
      usbh_cdc_flush_tx_buffer s h = (s, EspErr.invalidArg)) ∧
    (∀ d, s.findDev h = some d →
      (usbh_cdc_flush_rx_buffer s h).2 = EspErr.ok ∧
      (usbh_cdc_flush_tx_buffer s h).2 = EspErr.ok) := by
  constructor
  · intro hf
    exact ⟨flush_rx_of_none hf, flush_tx_of_none hf⟩
  · intro d hf
    constructor
    · rw [flush_rx_of_some hf]
    · rw [flush_tx_of_some hf]

/-- Witness for the C10 theorem on a DISCONNECTED device: flushes still
return `ESP_OK` after the device of `exSys` has been removed. -/
theorem flush_succeeds_any_state_witness :
    (exSys.deviceRemoved 0).findDev 0 = some (disconnectDev exDev) ∧
    (disconnectDev exDev).st = DevState.disconnected ∧
    (usbh_cdc_flush_rx_buffer (exSys.deviceRemoved 0) 0).2 = EspErr.ok ∧
    (usbh_cdc_flush_tx_buffer (exSys.deviceRemoved 0) 0).2 = EspErr.ok :=
  ⟨by decide, by decide,
    ((flush_succeeds_any_state (exSys.deviceRemoved 0) 0).2
      (disconnectDev exDev) (by decide)).1,
    ((flush_succeeds_any_state (exSys.deviceRemoved 0) 0).2
      (disconnectDev exDev) (by decide)).2⟩

end IotUsbhCdc
